import Mathlib

/-!
Verification of `arangod/RocksDBEngine/RocksDBMethods.cpp`.

Shallow embedding: each C++ class member function that the claims touch is
translated to a Lean function over explicit state.  External collaborators
(the rocksdb transaction object, the indexed write batch, the storage engine)
are modelled as oracles (function-valued fields) or as explicit call traces:
every call the code issues on a collaborator is recorded in an output list, so
"issues no call" and "issues exactly one call" are provable statements.
-/

/-- Status codes of the storage engine (`rocksdb::Status`), reduced to the code
points this layer inspects. -/
inductive RocksStatus
  | ok
  | notFound
  | corruption
  | ioError
  | busy
  | timedOut
  deriving DecidableEq, Repr

/-- `rocksdb::Status::IsNotFound()`. -/
def RocksStatus.IsNotFound : RocksStatus → Bool
  | RocksStatus.notFound => true
  | _ => false

/-- `arangodb::Result`; `errorNumber = 0` is success, as produced by the
default constructor `arangodb::Result()`. -/
structure Result where
  errorNumber : Nat
  deriving DecidableEq, Repr

/-- `arangodb::Result()` — the default success result. -/
def Result.success : Result := { errorNumber := 0 }

/-- The error code `TRI_ERROR_ARANGO_READ_ONLY`. -/
def TRI_ERROR_ARANGO_READ_ONLY : Nat := 1004

/-- `rocksutils::StatusHint`: steers only how a failure status would be
translated to a domain error; no other semantic effect. -/
inductive StatusHint
  | none
  | document
  | collection
  | index
  | database
  | view
  | wal
  deriving DecidableEq, Repr

/-- `rocksdb::ReadOptions`: the snapshot pointer (`Option.none` models
`nullptr`) plus one abstract field standing in for all remaining read-option
fields, so that "a local copy with only the snapshot field changed" is
expressible. -/
structure ReadOptions where
  snapshot : Option Nat
  rest : Nat
  deriving DecidableEq, Repr

/-- A default-constructed `rocksdb::ReadOptions ro;` — it carries no
snapshot. -/
def ReadOptions.default : ReadOptions := { snapshot := none, rest := 0 }

/-- `RocksDBTransactionState`, restricted to the members `RocksDBMethods.cpp`
reads: the shared read options `_rocksReadOptions`, the pinned snapshot
`_readSnapshot`, the `INTERMEDIATE_COMMITS` hint, and the native rocksdb
transaction object's `Get`, modelled as an oracle from read options, column
family handle and key to the status it returns. -/
structure RocksDBTransactionState where
  rocksReadOptions : ReadOptions
  readSnapshot : Option Nat
  hintIntermediateCommits : Bool
  rocksTransactionGet : ReadOptions → Nat → String → RocksStatus

/-- `RocksDBMethods::iteratorReadOptions` (RocksDBMethods.cpp lines 115-123):
under the `INTERMEDIATE_COMMITS` hint, copy the shared read options and re-pin
the transaction-wide snapshot on the copy; otherwise return the shared read
options unchanged. -/
def RocksDBMethods.iteratorReadOptions (state : RocksDBTransactionState) : ReadOptions :=
  if state.hintIntermediateCommits then
    { state.rocksReadOptions with snapshot := state.readSnapshot }
  else
    state.rocksReadOptions

/-- `TRI_voc_document_operation_e` — the document-operation-type tag carried
by a savepoint guard. -/
inductive TRI_voc_document_operation_e
  | unknown
  | insert
  | update
  | replace
  | remove
  deriving DecidableEq, Repr

/-- Calls the `RocksDBSavePoint` guard issues on the transaction's Methods
object and on the transaction state. -/
inductive SavePointCall
  | setSavePoint
  | popSavePoint
  | rollbackToSavePoint
  | rollbackOperation (operationType : TRI_voc_document_operation_e)
  deriving DecidableEq, Repr

/-- The fields of `RocksDBSavePoint` (the `_trx` pointer is represented by the
call trace each operation emits): the operation-type tag and the `_handled`
flag.  Note the guard stores nothing about intermediate commits. -/
structure RocksDBSavePoint where
  operationType : TRI_voc_document_operation_e
  handled : Bool
  deriving DecidableEq, Repr

/-- `RocksDBSavePoint::RocksDBSavePoint` (lines 40-51): `_handled` is
initialised from `isSingleOperationTransaction()`; when not handled, one
`SetSavePoint()` is issued. -/
def RocksDBSavePoint.construct (isSingleOperationTransaction : Bool)
    (operationType : TRI_voc_document_operation_e) :
    RocksDBSavePoint × List SavePointCall :=
  let sp : RocksDBSavePoint :=
    { operationType := operationType, handled := isSingleOperationTransaction }
  if !sp.handled then
    (sp, [SavePointCall.setSavePoint])
  else
    (sp, [])

/-- `RocksDBSavePoint::finish` (lines 67-84): pop the savepoint only when the
guard is unhandled and no intermediate commit occurred; in every case set
`_handled`. -/
def RocksDBSavePoint.finish (sp : RocksDBSavePoint)
    (hasPerformedIntermediateCommit : Bool) :
    RocksDBSavePoint × List SavePointCall :=
  if !sp.handled && !hasPerformedIntermediateCommit then
    ({ sp with handled := true }, [SavePointCall.popSavePoint])
  else
    ({ sp with handled := true }, [])

/-- `RocksDBSavePoint::rollback` (lines 86-95): issue `RollbackToSavePoint()`
on the Methods object, then `rollbackOperation` on the transaction state, then
set `_handled` so the destructor does not roll back again.  The
`TRI_ASSERT(!_handled)` is a debug-build precondition, stated by the theorems
as a hypothesis where relevant. -/
def RocksDBSavePoint.rollback (sp : RocksDBSavePoint) :
    RocksDBSavePoint × List SavePointCall :=
  ({ sp with handled := true },
   [SavePointCall.rollbackToSavePoint,
    SavePointCall.rollbackOperation sp.operationType])

/-- `RocksDBSavePoint::~RocksDBSavePoint` (lines 53-65): roll back exactly
when the guard is still unhandled.  The surrounding try/catch only stops
exceptions from escaping and emits no collaborator call, so it is not
represented. -/
def RocksDBSavePoint.destruct (sp : RocksDBSavePoint) :
    RocksDBSavePoint × List SavePointCall :=
  if !sp.handled then
    RocksDBSavePoint.rollback sp
  else
    (sp, [])

/-- Calls `RocksDBReadOnlyMethods` could issue on the storage engine. -/
inductive EngineCall
  | keyMayExist
  | get
  | newIterator
  deriving DecidableEq, Repr

/-- `RocksDBReadOnlyMethods::Put` (lines 198-203): throws
`TRI_ERROR_ARANGO_READ_ONLY` unconditionally; the thrown exception is the
`Except.error`, and no engine call is issued.  The column family is an
`Option` so that even a null handle reaches the throw without any check. -/
def RocksDBReadOnlyMethods.Put (cf : Option Nat) (key : String) (val : String)
    (hint : StatusHint) : Except Nat Result × List EngineCall :=
  (Except.error TRI_ERROR_ARANGO_READ_ONLY, [])

/-- `RocksDBReadOnlyMethods::Delete` (lines 205-208): throws
`TRI_ERROR_ARANGO_READ_ONLY` unconditionally. -/
def RocksDBReadOnlyMethods.Delete (cf : Option Nat) (key : String) :
    Except Nat Result × List EngineCall :=
  (Except.error TRI_ERROR_ARANGO_READ_ONLY, [])

/-- `RocksDBReadOnlyMethods::SingleDelete` (lines 210-213): throws
`TRI_ERROR_ARANGO_READ_ONLY` unconditionally. -/
def RocksDBReadOnlyMethods.SingleDelete (cf : Option Nat) (key : String) :
    Except Nat Result × List EngineCall :=
  (Except.error TRI_ERROR_ARANGO_READ_ONLY, [])

/-- Calls `RocksDBTrxMethods` issues on the native transaction object for the
indexing toggle. -/
inductive TrxEngineCall
  | disableIndexing
  | enableIndexing
  deriving DecidableEq, Repr

/-- `RocksDBTrxMethods`: the bound transaction state plus the
`_indexingDisabled` flag (initialised to `false` by the constructor). -/
structure RocksDBTrxMethods where
  state : RocksDBTransactionState
  indexingDisabled : Bool

/-- `RocksDBTrxMethods::DisableIndexing` (lines 223-230): when not already
disabled, forward `DisableIndexing()` to the transaction object, set the flag
and return `true`; otherwise return `false` with no call. -/
def RocksDBTrxMethods.DisableIndexing (m : RocksDBTrxMethods) :
    Bool × RocksDBTrxMethods × List TrxEngineCall :=
  if !m.indexingDisabled then
    (true, { m with indexingDisabled := true }, [TrxEngineCall.disableIndexing])
  else
    (false, m, [])

/-- `RocksDBTrxMethods::EnableIndexing` (lines 232-237): only when currently
disabled, forward `EnableIndexing()` and clear the flag. -/
def RocksDBTrxMethods.EnableIndexing (m : RocksDBTrxMethods) :
    RocksDBTrxMethods × List TrxEngineCall :=
  if m.indexingDisabled then
    ({ m with indexingDisabled := false }, [TrxEngineCall.enableIndexing])
  else
    (m, [])

/-- `RocksDBTrxMethods::Exists` (lines 243-250): ask the transaction object's
`Get` with the shared read options and report `!s.IsNotFound()`. -/
def RocksDBTrxMethods.Exists (m : RocksDBTrxMethods) (cf : Nat) (key : String) : Bool :=
  !(m.state.rocksTransactionGet m.state.rocksReadOptions cf key).IsNotFound

/-- Operations recorded in a `rocksdb::WriteBatchWithIndex`. -/
inductive BatchOp
  | put (cf : Nat) (key : String) (val : String)
  | del (cf : Nat) (key : String)
  | singleDel (cf : Nat) (key : String)
  deriving DecidableEq, Repr

/-- `rocksdb::WriteBatchWithIndex` (external collaborator): its accumulated
operations, the status it would report for an append (the caller in this file
discards it), and its batch-merged-with-database lookup `GetFromBatchAndDB`,
modelled as an oracle taking the db handle, read options, column family and
key. -/
structure WriteBatchWithIndex where
  ops : List BatchOp
  opStatus : RocksStatus
  getFromBatchAndDB : Nat → ReadOptions → Nat → String → RocksStatus

/-- Collaborator `WriteBatchWithIndex::Put`: appends and yields the batch's
own status. -/
def WriteBatchWithIndex.Put (wb : WriteBatchWithIndex) (cf : Nat)
    (key val : String) : WriteBatchWithIndex × RocksStatus :=
  ({ wb with ops := wb.ops ++ [BatchOp.put cf key val] }, wb.opStatus)

/-- Collaborator `WriteBatchWithIndex::Delete`: appends and yields the batch's
own status. -/
def WriteBatchWithIndex.Delete (wb : WriteBatchWithIndex) (cf : Nat)
    (key : String) : WriteBatchWithIndex × RocksStatus :=
  ({ wb with ops := wb.ops ++ [BatchOp.del cf key] }, wb.opStatus)

/-- Collaborator `WriteBatchWithIndex::SingleDelete`: appends and yields the
batch's own status. -/
def WriteBatchWithIndex.SingleDelete (wb : WriteBatchWithIndex) (cf : Nat)
    (key : String) : WriteBatchWithIndex × RocksStatus :=
  ({ wb with ops := wb.ops ++ [BatchOp.singleDel cf key] }, wb.opStatus)

/-- `RocksDBBatchedMethods::Put` (lines 392-399): append to the batch,
discard whatever status the batch yields, return `arangodb::Result()`. -/
def RocksDBBatchedMethods.Put (wb : WriteBatchWithIndex) (cf : Nat)
    (key val : String) (hint : StatusHint) : WriteBatchWithIndex × Result :=
  ((WriteBatchWithIndex.Put wb cf key val).1, Result.success)

/-- `RocksDBBatchedMethods::Delete` (lines 401-406): append to the batch,
discard the batch status, return `arangodb::Result()`. -/
def RocksDBBatchedMethods.Delete (wb : WriteBatchWithIndex) (cf : Nat)
    (key : String) : WriteBatchWithIndex × Result :=
  ((WriteBatchWithIndex.Delete wb cf key).1, Result.success)

/-- `RocksDBBatchedMethods::SingleDelete` (lines 408-413): append to the
batch, discard the batch status, return `arangodb::Result()`. -/
def RocksDBBatchedMethods.SingleDelete (wb : WriteBatchWithIndex) (cf : Nat)
    (key : String) : WriteBatchWithIndex × Result :=
  ((WriteBatchWithIndex.SingleDelete wb cf key).1, Result.success)

/-- `RocksDBBatchedMethods::Exists` (lines 365-372): look up through
`GetFromBatchAndDB` with freshly default-constructed read options and report
`!s.IsNotFound()`. -/
def RocksDBBatchedMethods.Exists (db : Nat) (wb : WriteBatchWithIndex)
    (cf : Nat) (key : String) : Bool :=
  !(wb.getFromBatchAndDB db ReadOptions.default cf key).IsNotFound

/-- A concrete transaction state, used to exercise theorems on closed
inputs. -/
def sampleState : RocksDBTransactionState :=
  { rocksReadOptions := { snapshot := some 5, rest := 7 }
    readSnapshot := some 9
    hintIntermediateCommits := true
    rocksTransactionGet := fun _ _ _ => RocksStatus.ok }

/-- Claim C1 (code bug, evaluated at the failing input): a guard created
against a multi-operation transaction and destroyed without `finish()` issues
`RollbackToSavePoint()` and the operation-counter rollback unconditionally.
The guard state carries no record of an intermediate commit, so after an
intermediate commit has invalidated the savepoint the destructor still rolls
back to it, contradicting the destructor's own comment ("only roll back if we
... have not performed an intermediate commit in-between") and the spec. -/
theorem savepoint_destruct_rolls_back_despite_intermediate_commit :
    (RocksDBSavePoint.destruct
        ((RocksDBSavePoint.construct false TRI_voc_document_operation_e.insert).1)).2
      = [SavePointCall.rollbackToSavePoint,
         SavePointCall.rollbackOperation TRI_voc_document_operation_e.insert] := by
  rfl

/-- Claim C2: a guard that was never `finish()`-ed triggers rollback exactly
once upon destruction (the destructor's call list contains exactly one
`rollbackToSavePoint`), the destructor leaves the guard handled, a repeated
rollback attempt through the destructor path is then a no-op issuing no call,
and destruction of any guard already in the handled state issues no call. -/
theorem savepoint_rollback_exactly_once (sp sp' : RocksDBSavePoint)
    (h : sp.handled = false) (h' : sp'.handled = true) :
    (RocksDBSavePoint.destruct sp).2
        = [SavePointCall.rollbackToSavePoint,
           SavePointCall.rollbackOperation sp.operationType]
    ∧ (RocksDBSavePoint.destruct sp).1.handled = true
    ∧ (RocksDBSavePoint.destruct ((RocksDBSavePoint.destruct sp).1)).2 = []
    ∧ (RocksDBSavePoint.destruct sp').2 = [] := by
  refine ⟨?_, ?_, ?_, ?_⟩ <;>
    simp [RocksDBSavePoint.destruct, RocksDBSavePoint.rollback, h, h']

/-- Witness for C2 at concrete guards. -/
theorem savepoint_rollback_exactly_once_witness :
    (RocksDBSavePoint.destruct ⟨TRI_voc_document_operation_e.remove, false⟩).2
        = [SavePointCall.rollbackToSavePoint,
           SavePointCall.rollbackOperation TRI_voc_document_operation_e.remove]
    ∧ (RocksDBSavePoint.destruct ⟨TRI_voc_document_operation_e.remove, false⟩).1.handled = true
    ∧ (RocksDBSavePoint.destruct
        ((RocksDBSavePoint.destruct ⟨TRI_voc_document_operation_e.remove, false⟩).1)).2 = []
    ∧ (RocksDBSavePoint.destruct ⟨TRI_voc_document_operation_e.update, true⟩).2 = [] :=
  savepoint_rollback_exactly_once
    ⟨TRI_voc_document_operation_e.remove, false⟩
    ⟨TRI_voc_document_operation_e.update, true⟩ rfl rfl

/-- Claim C3: every mutating call on the read-only strategy throws
`TRI_ERROR_ARANGO_READ_ONLY` (an `Except.error`, not a returned `Result`),
for every argument including a null column family, and issues no storage
engine call beforehand. -/
theorem readonly_mutations_throw (cf : Option Nat) (key val : String)
    (hint : StatusHint) :
    RocksDBReadOnlyMethods.Put cf key val hint
        = (Except.error TRI_ERROR_ARANGO_READ_ONLY, [])
    ∧ RocksDBReadOnlyMethods.Delete cf key
        = (Except.error TRI_ERROR_ARANGO_READ_ONLY, [])
    ∧ RocksDBReadOnlyMethods.SingleDelete cf key
        = (Except.error TRI_ERROR_ARANGO_READ_ONLY, []) :=
  ⟨rfl, rfl, rfl⟩

/-- Claim C4: on an unhandled guard, `finish true` issues no `PopSavePoint`,
`finish false` issues exactly one `PopSavePoint`, and either way the guard
becomes handled so its later destruction issues no call. -/
theorem savepoint_finish_spec (sp : RocksDBSavePoint) (h : sp.handled = false) :
    (RocksDBSavePoint.finish sp true).2 = []
    ∧ (RocksDBSavePoint.finish sp false).2 = [SavePointCall.popSavePoint]
    ∧ (∀ b : Bool, (RocksDBSavePoint.finish sp b).1.handled = true
        ∧ (RocksDBSavePoint.destruct ((RocksDBSavePoint.finish sp b).1)).2 = []) := by
  refine ⟨?_, ?_, fun b => ?_⟩
  · simp [RocksDBSavePoint.finish, h]
  · simp [RocksDBSavePoint.finish, h]
  · cases b <;>
      simp [RocksDBSavePoint.finish, RocksDBSavePoint.destruct,
        RocksDBSavePoint.rollback, h]

/-- Witness for C4 at a concrete guard. -/
theorem savepoint_finish_spec_witness :
    (RocksDBSavePoint.finish ⟨TRI_voc_document_operation_e.update, false⟩ true).2 = []
    ∧ (RocksDBSavePoint.finish ⟨TRI_voc_document_operation_e.update, false⟩ false).2
        = [SavePointCall.popSavePoint]
    ∧ (RocksDBSavePoint.destruct
        ((RocksDBSavePoint.finish ⟨TRI_voc_document_operation_e.update, false⟩ true).1)).2 = [] := by
  have h := savepoint_finish_spec ⟨TRI_voc_document_operation_e.update, false⟩ rfl
  exact ⟨h.1, h.2.1, (h.2.2 true).2⟩

/-- Claim C5: construction on a single-operation transaction yields a handled
guard and no `SetSavePoint`; otherwise the guard is unhandled and exactly one
`SetSavePoint` is issued. -/
theorem savepoint_construct_spec (op : TRI_voc_document_operation_e) :
    ((RocksDBSavePoint.construct true op).1.handled = true
      ∧ (RocksDBSavePoint.construct true op).2 = [])
    ∧ ((RocksDBSavePoint.construct false op).1.handled = false
      ∧ (RocksDBSavePoint.construct false op).2 = [SavePointCall.setSavePoint]) := by
  refine ⟨⟨?_, ?_⟩, ⟨?_, ?_⟩⟩ <;> rfl

/-- Claim C6: `Put`, `Delete` and `SingleDelete` on the batched strategy
append exactly their operation to the write batch and return the success
`Result`, for every batch state (in particular for every status the batch
itself would yield, which is never propagated). -/
theorem batched_writes_append_and_succeed (wb : WriteBatchWithIndex) (cf : Nat)
    (key val : String) (hint : StatusHint) :
    RocksDBBatchedMethods.Put wb cf key val hint
        = ({ wb with ops := wb.ops ++ [BatchOp.put cf key val] }, Result.success)
    ∧ RocksDBBatchedMethods.Delete wb cf key
        = ({ wb with ops := wb.ops ++ [BatchOp.del cf key] }, Result.success)
    ∧ RocksDBBatchedMethods.SingleDelete wb cf key
        = ({ wb with ops := wb.ops ++ [BatchOp.singleDel cf key] }, Result.success) :=
  ⟨rfl, rfl, rfl⟩

/-- Claim C7: `Exists` on the transactional strategy is true exactly when the
transaction object's `Get` status is not not-found, so any error status other
than not-found is reported as "exists". -/
theorem trx_exists_iff_not_notfound (m : RocksDBTrxMethods) (cf : Nat) (key : String) :
    RocksDBTrxMethods.Exists m cf key = true ↔
      m.state.rocksTransactionGet m.state.rocksReadOptions cf key
        ≠ RocksStatus.notFound := by
  unfold RocksDBTrxMethods.Exists
  cases h : m.state.rocksTransactionGet m.state.rocksReadOptions cf key <;>
    simp [RocksStatus.IsNotFound, h]

/-- Claim C8: when the `INTERMEDIATE_COMMITS` hint is set,
`iteratorReadOptions` returns a copy of the shared read options whose snapshot
field is set to the pinned transaction-wide snapshot; otherwise it returns the
shared read options unchanged. -/
theorem iteratorReadOptions_repins_snapshot (state : RocksDBTransactionState) :
    (state.hintIntermediateCommits = true →
      RocksDBMethods.iteratorReadOptions state
        = { state.rocksReadOptions with snapshot := state.readSnapshot })
    ∧ (state.hintIntermediateCommits = false →
      RocksDBMethods.iteratorReadOptions state = state.rocksReadOptions) := by
  constructor <;> intro h <;> simp [RocksDBMethods.iteratorReadOptions, h]

/-- Witness for C8: on `sampleState` (hint set, shared snapshot 5, pinned
snapshot 9, other fields 7) the result re-pins snapshot 9 and keeps the other
fields. -/
theorem iteratorReadOptions_repins_snapshot_witness :
    RocksDBMethods.iteratorReadOptions sampleState = { snapshot := some 9, rest := 7 } :=
  (iteratorReadOptions_repins_snapshot sampleState).1 rfl

/-- Claim C9: starting from indexing enabled, the first `DisableIndexing`
returns true, disables, and issues one call; an immediately repeated
`DisableIndexing` returns false, changes nothing and issues no call;
`EnableIndexing` on any disabled state re-enables with exactly one call, and
on any enabled state does nothing. -/
theorem indexing_toggle_spec (m : RocksDBTrxMethods) (h : m.indexingDisabled = false) :
    ((RocksDBTrxMethods.DisableIndexing m).1 = true
      ∧ (RocksDBTrxMethods.DisableIndexing m).2.1.indexingDisabled = true
      ∧ (RocksDBTrxMethods.DisableIndexing m).2.2 = [TrxEngineCall.disableIndexing])
    ∧ ((RocksDBTrxMethods.DisableIndexing (RocksDBTrxMethods.DisableIndexing m).2.1).1 = false
      ∧ (RocksDBTrxMethods.DisableIndexing (RocksDBTrxMethods.DisableIndexing m).2.1).2.1
          = (RocksDBTrxMethods.DisableIndexing m).2.1
      ∧ (RocksDBTrxMethods.DisableIndexing (RocksDBTrxMethods.DisableIndexing m).2.1).2.2 = [])
    ∧ (∀ m' : RocksDBTrxMethods, m'.indexingDisabled = true →
        RocksDBTrxMethods.EnableIndexing m'
          = ({ m' with indexingDisabled := false }, [TrxEngineCall.enableIndexing]))
    ∧ (∀ m' : RocksDBTrxMethods, m'.indexingDisabled = false →
        RocksDBTrxMethods.EnableIndexing m' = (m', [])) := by
  refine ⟨⟨?_, ?_, ?_⟩, ⟨?_, ?_, ?_⟩, fun m' h' => ?_, fun m' h' => ?_⟩
  all_goals
    first
    | simp [RocksDBTrxMethods.DisableIndexing, h]
    | simp [RocksDBTrxMethods.EnableIndexing, h']

/-- Witness for C9 at a concrete strategy object. -/
theorem indexing_toggle_spec_witness :
    (RocksDBTrxMethods.DisableIndexing ⟨sampleState, false⟩).1 = true
    ∧ (RocksDBTrxMethods.DisableIndexing
        (RocksDBTrxMethods.DisableIndexing ⟨sampleState, false⟩).2.1).1 = false
    ∧ RocksDBTrxMethods.EnableIndexing
        (RocksDBTrxMethods.DisableIndexing ⟨sampleState, false⟩).2.1
      = (⟨sampleState, false⟩, [TrxEngineCall.enableIndexing]) := by
  have h := indexing_toggle_spec ⟨sampleState, false⟩ rfl
  exact ⟨h.1.1, h.2.1.1, h.2.2.1 (RocksDBTrxMethods.DisableIndexing ⟨sampleState, false⟩).2.1 rfl⟩

/-- Claim C10: `Exists` on the batched strategy is true exactly when the
batch-merged-with-database lookup status is not not-found, and the lookup is
performed with default-constructed read options, which carry no snapshot. -/
theorem batched_exists_spec (db : Nat) (wb : WriteBatchWithIndex) (cf : Nat)
    (key : String) :
    (RocksDBBatchedMethods.Exists db wb cf key = true ↔
      wb.getFromBatchAndDB db ReadOptions.default cf key ≠ RocksStatus.notFound)
    ∧ ReadOptions.default.snapshot = none := by
  constructor
  · unfold RocksDBBatchedMethods.Exists
    cases h : wb.getFromBatchAndDB db ReadOptions.default cf key <;>
      simp [RocksStatus.IsNotFound, h]
  · rfl
